import Mathlib

/-!
Shallow embedding of the YouTube-Shorts automation pipeline
(`src/pipeline.py`, `src/audio/mixer.py`, `src/video/composer.py`,
`src/generators/story_generator.py`) and proofs of the specified
properties of the job state machine, timing model, audio builder and
batch runner.

Conventions: Python floats are modelled as rationals (ℚ), Python ints as
ℤ (or ℕ for loop counts known non-negative), Python `int(x)` as
truncation toward zero, exceptions as `Except String`, and the external
collaborators (OpenAI, renderer, MoviePy, pydub, YouTube) as oracle
functions supplied in an environment record.
-/

/-- Truncation toward zero, the semantics of Python `int(float)`. -/
def pyInt (q : ℚ) : ℤ :=
  if q < 0 then ⌈q⌉ else ⌊q⌋

/-! ## Data model: `JobStatus`, `Message`, `Story`, `PipelineJob`
    (from `src/pipeline.py` and `src/generators/story_generator.py`) -/

/-- The `JobStatus` enum of `pipeline.py`. -/
inductive JobStatus where
  | pending
  | generating_story
  | rendering_frames
  | composing_video
  | mixing_audio
  | uploading
  | completed
  | failed
deriving DecidableEq, Repr

/-- The `.value` string of each `JobStatus` member. -/
def JobStatus.value : JobStatus → String
  | .pending => "pending"
  | .generating_story => "generating_story"
  | .rendering_frames => "rendering_frames"
  | .composing_video => "composing_video"
  | .mixing_audio => "mixing_audio"
  | .uploading => "uploading"
  | .completed => "completed"
  | .failed => "failed"

/-- The `JobStatus(value)` enum constructor: looks a member up by its
string value, `none` modelling the `ValueError` on unknown strings. -/
def JobStatus.ofValue (s : String) : Option JobStatus :=
  if s = "pending" then some .pending
  else if s = "generating_story" then some .generating_story
  else if s = "rendering_frames" then some .rendering_frames
  else if s = "composing_video" then some .composing_video
  else if s = "mixing_audio" then some .mixing_audio
  else if s = "uploading" then some .uploading
  else if s = "completed" then some .completed
  else if s = "failed" then some .failed
  else none

/-- The `Message` dataclass of `story_generator.py`. -/
structure Message where
  username : String
  content : String
  avatar_color : String
  timestamp : Option String := none
  reactions : List String := []
deriving DecidableEq, Repr

/-- The `Story` dataclass of `story_generator.py`. -/
structure Story where
  title : String
  theme : String
  messages : List Message
  description : String := ""
  tags : List String := []
deriving DecidableEq, Repr

/-- The dictionary produced for one message by `Story.to_dict`.  Every
key is always emitted (absent optionals are emitted as `None`), so the
record is total. -/
structure MessageDict where
  username : String
  content : String
  avatar_color : String
  timestamp : Option String
  reactions : List String
deriving DecidableEq, Repr

/-- The dictionary produced by `Story.to_dict`. -/
structure StoryDict where
  title : String
  theme : String
  description : String
  tags : List String
  messages : List MessageDict
deriving DecidableEq, Repr

/-- Embedding of `Story.to_dict` from `story_generator.py`. -/
def Story.to_dict (s : Story) : StoryDict :=
  { title := s.title
    theme := s.theme
    description := s.description
    tags := s.tags
    messages := s.messages.map fun m =>
      { username := m.username
        content := m.content
        avatar_color := m.avatar_color
        timestamp := m.timestamp
        reactions := m.reactions } }

/-- Embedding of `Story.from_dict` from `story_generator.py`: rebuilds each `Message`
with `msg.get('timestamp')` and `msg.get('reactions', [])`; on the total
dict produced by `to_dict` these are plain field reads. -/
def Story.from_dict (d : StoryDict) : Story :=
  { title := d.title
    theme := d.theme
    description := d.description
    tags := d.tags
    messages := d.messages.map fun m =>
      { username := m.username
        content := m.content
        avatar_color := m.avatar_color
        timestamp := m.timestamp
        reactions := m.reactions } }

/-- The `PipelineJob` dataclass of `pipeline.py`. -/
structure PipelineJob where
  id : String
  theme : Option String := none
  status : JobStatus := .pending
  story : Option Story := none
  video_path : Option String := none
  thumbnail_path : Option String := none
  youtube_id : Option String := none
  error : Option String := none
  created_at : String := ""
  completed_at : Option String := none
deriving DecidableEq, Repr

/-- The dictionary produced by `PipelineJob.to_dict` (every key always
emitted; `status` is the enum's string value; `story` is the nested
story dict or `None`). -/
structure JobDict where
  id : String
  theme : Option String
  status : String
  story : Option StoryDict
  video_path : Option String
  thumbnail_path : Option String
  youtube_id : Option String
  error : Option String
  created_at : String
  completed_at : Option String
deriving DecidableEq, Repr

/-- Embedding of `PipelineJob.to_dict` from `pipeline.py`. -/
def PipelineJob.to_dict (j : PipelineJob) : JobDict :=
  { id := j.id
    theme := j.theme
    status := j.status.value
    story := j.story.map Story.to_dict
    video_path := j.video_path
    thumbnail_path := j.thumbnail_path
    youtube_id := j.youtube_id
    error := j.error
    created_at := j.created_at
    completed_at := j.completed_at }

/-- Embedding of `PipelineJob.from_dict` from `pipeline.py`: `JobStatus(data['status'])`
raises (`none`) on an unknown status string; the story is attached only
when `data.get('story')` is truthy, i.e. present (a story dict is a
non-empty dict, hence truthy). -/
def PipelineJob.from_dict (d : JobDict) : Option PipelineJob :=
  match JobStatus.ofValue d.status with
  | none => none
  | some st =>
      some { id := d.id
             theme := d.theme
             status := st
             story := d.story.map Story.from_dict
             video_path := d.video_path
             thumbnail_path := d.thumbnail_path
             youtube_id := d.youtube_id
             error := d.error
             created_at := d.created_at
             completed_at := d.completed_at }

/-! ## Timing calculator (`VideoComposer._calculate_durations`) -/

/-- Clamp `x` into `[lo, hi]`, the `max lo (min hi x)` pattern of the
source. -/
def clampQ (lo hi x : ℚ) : ℚ := max lo (min hi x)

/-- Embedding of `VideoComposer._calculate_durations` from `composer.py` with the
target already resolved: when `target_duration is None` the caller uses
`(duration_min + duration_max) / 2` (config defaults 30 and 59).
Returns `(display_time, typing_time)`. -/
def calculate_durations (num_messages : ℕ) (dmin dmax : ℚ) : ℚ × ℚ :=
  let target : ℚ := (dmin + dmax) / 2
  let time_per_message : ℚ := target / (num_messages : ℚ)
  let typing_time : ℚ := time_per_message * 0.3
  let display_time : ℚ := time_per_message * 0.7
  let typing_clamped : ℚ := max 0.4 (min 1.0 typing_time)
  let display_clamped : ℚ := max 1.0 (min 3.0 display_time)
  (display_clamped, typing_clamped)

/-! ## SFX timestamp scheduler (`AudioMixer.calculate_sfx_timestamps`) -/

/-- The body of the `for i in range(num_messages)` loop of
`calculate_sfx_timestamps`: `remaining` counts iterations left, `i` is
the current index, `t` the running clock. -/
def sfxAux (message_ms typing_ms : ℤ) (skip_first : Bool) :
    ℕ → ℕ → ℤ → List ℤ
  | 0, _, _ => []
  | remaining + 1, i, t =>
      let t1 := if 0 < i then t + typing_ms else t
      let rest := sfxAux message_ms typing_ms skip_first remaining (i + 1) (t1 + message_ms)
      if skip_first = true ∧ i = 0 then rest else t1 :: rest

/-- Embedding of `AudioMixer.calculate_sfx_timestamps` from `mixer.py` (default
`skip_first=True` at the call sites). -/
def calculate_sfx_timestamps (num_messages : ℕ) (message_duration_ms typing_duration_ms : ℤ)
    (skip_first : Bool := true) : List ℤ :=
  sfxAux message_duration_ms typing_duration_ms skip_first num_messages 0 0

/-! ## Video composition (`VideoComposer.compose_from_frames`) -/

/-- Does `pre ++ _ = l` hold for some tail, i.e. does `l` start with
`pre`?  Executable helper for substring containment. -/
def leadsWith : List Char → List Char → Bool
  | [], _ => true
  | _ :: _, [] => false
  | a :: as, b :: bs => a == b && leadsWith as bs

/-- Does `needle` occur contiguously inside `hay`?  Models Python's
`needle in hay` on strings. -/
def containsSeq (needle : List Char) : List Char → Bool
  | [] => leadsWith needle []
  | c :: cs => leadsWith needle (c :: cs) || containsSeq needle cs

/-- Model of `os.path.basename`: the part of the path after the last `/`. -/
def basename (p : String) : String :=
  ⟨p.data.foldl (fun acc c => if c = '/' then [] else acc ++ [c]) []⟩

/-- The typing-frame test of `compose_from_frames`:
`'typing' in os.path.basename(frame_path)`. -/
def isTypingFrame (p : String) : Bool :=
  containsSeq "typing".data (basename p).data

/-- The duration assigned to one frame by `compose_from_frames`. -/
def frameDuration (message_duration typing_duration : ℚ) (p : String) : ℚ :=
  if isTypingFrame p then typing_duration else message_duration

/-- Result of the composition model: the clips in concatenation order
with their durations, the total video duration, and the duration of the
attached audio track (if any). -/
structure ComposeOut where
  clips : List (String × ℚ)
  videoDuration : ℚ
  audioDuration : Option ℚ
deriving DecidableEq, Repr

/-- Embedding of `VideoComposer.compose_from_frames` from `composer.py`, tracking
durations: each frame becomes an `ImageClip` with its assigned duration,
the clips are concatenated in list order (no transitions), and an
available audio track of length `audioLen` is looped by repeated
concatenation while shorter than the video
(`loops_needed = int(video/audio) + 1`) and then trimmed with
`subclipped(0, video.duration)` (a trim can never extend a clip, hence
the `min`). -/
def compose_from_frames (frame_paths : List String) (audioLen : Option ℚ)
    (message_duration typing_duration : ℚ) : ComposeOut :=
  let clips := frame_paths.map fun p =>
    (p, frameDuration message_duration typing_duration p)
  let videoDuration := (clips.map Prod.snd).sum
  let audioDuration := audioLen.map fun a =>
    let looped := if a < videoDuration then a * ((pyInt (videoDuration / a) : ℚ) + 1) else a
    min looped videoDuration
  ⟨clips, videoDuration, audioDuration⟩

/-! ## Audio mixing (`AudioMixer.mix_for_video`) -/

/-- Symbolic audio segments: the constructions `mix_for_video` can
produce.  `silent d` is `AudioSegment.silent(duration=d)`; `music p d`
is `prepare_background_music(p, d)` (looped/trimmed to exactly `d`, then
faded and attenuated — length `d`); `sfx p ts d` is
`create_sfx_track(p, ts, d)` (overlays on a silent base of length `d`);
`mixed l` is `mix_tracks(l)` (overlay onto the longest track, then
normalize — length preserving). -/
inductive AudioTrack where
  | silent : ℤ → AudioTrack
  | music : String → ℤ → AudioTrack
  | sfx : String → List ℤ → ℤ → AudioTrack
  | mixed : List AudioTrack → AudioTrack
deriving Repr

/-- Length in milliseconds of a symbolic audio segment. -/
def AudioTrack.lengthMs : AudioTrack → ℤ
  | .silent d => d
  | .music _ d => d
  | .sfx _ _ d => d
  | .mixed l => (l.attach.map fun t => t.1.lengthMs).foldr max 0
decreasing_by
  simp only [AudioTrack.mixed.sizeOf_spec]
  have := List.sizeOf_lt_of_mem t.2
  omega

/-- Environment for the audio mixer: which assets exist and whether
loading them fails (`load_audio` raising on a missing or corrupt file),
plus the `audio.notification_sound` config flag. -/
structure MixEnv where
  randomMusic : Option String
  notifSound : Option String
  notifEnabled : Bool
  loadFails : String → Bool

/-- Embedding of `AudioMixer.mix_for_video` from `mixer.py`: resolve music (explicit
path, else `get_random_music()`); prepare a background-music track when
one is available; build an SFX track when a non-empty timestamp list is
supplied, the config flag is on, and `get_notification_sound()` finds an
asset (silently skipped otherwise); mix the collected tracks, or return
`AudioSegment.silent(duration=duration_ms)` when there are none; export
to `output_path` when given. -/
def mix_for_video (env : MixEnv) (duration_ms : ℤ) (music_path : Option String)
    (sfx_timestamps_ms : Option (List ℤ)) (output_path : Option String) :
    Except String (AudioTrack × Option String) :=
  let mp := match music_path with
    | some m => some m
    | none => env.randomMusic
  let musicTracks : Except String (List AudioTrack) :=
    match mp with
    | none => .ok []
    | some m =>
        if env.loadFails m then .error ("Audio file not found: " ++ m)
        else .ok [AudioTrack.music m duration_ms]
  match musicTracks with
  | .error e => .error e
  | .ok t1 =>
      let sfxTracks : Except String (List AudioTrack) :=
        match sfx_timestamps_ms with
        | none => .ok []
        | some ts =>
            if ts.isEmpty || !env.notifEnabled then .ok []
            else
              match env.notifSound with
              | none => .ok []
              | some sp =>
                  if env.loadFails sp then .error ("Audio file not found: " ++ sp)
                  else .ok [AudioTrack.sfx sp ts duration_ms]
      match sfxTracks with
      | .error e => .error e
      | .ok t2 =>
          let tracks := t1 ++ t2
          let mixedTrack :=
            if tracks.isEmpty then AudioTrack.silent duration_ms
            else AudioTrack.mixed tracks
          .ok (mixedTrack, output_path)

/-! ## Pipeline orchestrator (`Pipeline.run_job`) -/

/-- Oracles for the collaborators `run_job` drives, plus the
configuration values it reads.  Each fallible collaborator returns
`Except String` (the raised exception's message). -/
structure Env where
  gen : Option String → Except String Story
  render : Story → Except String (List String)
  randomMusic : Option String
  mix : ℤ → String → Option (List ℤ) → String → Except String String
  compose : List String → String → Option String → ℚ → ℚ → Except String Unit
  thumb : Story → String → Except String Unit
  upload : String → Story → String → Except String (Option String)
  notificationSoundCfg : Bool
  message_delay : ℚ
  typing_duration : ℚ
  nowIso : String
  videoFileName : String

/-- Observable side effects of one `run_job` execution: the sequence of
job records persisted by `job.save` (via `_update_job`), the collaborator
calls made in order with the error they raised (if any), whether
`mix_for_video` was invoked, whether the intermediate audio file was
exported, and the `audio_path` argument handed to the composer. -/
structure RunLog where
  saves : List PipelineJob
  calls : List (String × Option String)
  mixCalled : Bool
  audioFileCreated : Bool
  composerAudioArg : Option (Option String)
deriving DecidableEq, Repr

/-- The `except Exception` block at the end of `run_job`: set the job to
`FAILED` with the error message, persist it, and re-raise. -/
def failWith (log : RunLog) (j : PipelineJob) (e : String) :
    Except String PipelineJob × RunLog :=
  (.error e,
   { log with saves := log.saves ++ [{ j with status := .failed, error := some e }] })

/-- Steps 4–5 of `run_job` (compose video, thumbnail, optional upload,
mark complete), shared by the with-music and no-music paths. -/
def composePhase (env : Env) (upload : Bool) (story : Story)
    (frame_paths : List String) (audio_path : Option String)
    (j4 : PipelineJob) (log : RunLog) : Except String PipelineJob × RunLog :=
  let j5 : PipelineJob := { j4 with status := .composing_video }
  let log5 : RunLog := { log with saves := log.saves ++ [j5] }
  match env.compose frame_paths env.videoFileName audio_path
      env.message_delay env.typing_duration with
  | .error e =>
      failWith { log5 with calls := log5.calls ++ [("compose", some e)], composerAudioArg := some audio_path } j5 e
  | .ok _ =>
      let log6 : RunLog := { log5 with calls := log5.calls ++ [("compose", none)], composerAudioArg := some audio_path }
      let j6 : PipelineJob := { j5 with video_path := some env.videoFileName }
      match env.thumb story (j4.id ++ "_thumbnail.png") with
      | .error e =>
          failWith { log6 with calls := log6.calls ++ [("thumbnail", some e)] } j6 e
      | .ok _ =>
          let log7 : RunLog := { log6 with calls := log6.calls ++ [("thumbnail", none)] }
          let j7 : PipelineJob := { j6 with thumbnail_path := some (j4.id ++ "_thumbnail.png") }
          if upload then
            let j8 : PipelineJob := { j7 with status := .uploading }
            let log8 : RunLog := { log7 with saves := log7.saves ++ [j8] }
            match env.upload env.videoFileName story (j4.id ++ "_thumbnail.png") with
            | .error e =>
                failWith { log8 with calls := log8.calls ++ [("upload", some e)] } j8 e
            | .ok vid =>
                let log9 : RunLog := { log8 with calls := log8.calls ++ [("upload", none)] }
                let j9 : PipelineJob :=
                  { j8 with youtube_id := match vid with
                      | some v => some v
                      | none => j8.youtube_id }
                let jc : PipelineJob :=
                  { j9 with completed_at := some env.nowIso, status := .completed }
                (.ok jc, { log9 with saves := log9.saves ++ [jc] })
          else
            let jc : PipelineJob :=
              { j7 with completed_at := some env.nowIso, status := .completed }
            (.ok jc, { log7 with saves := log7.saves ++ [jc] })

/-- Model of `music_path = music_path if music_path is not None else
self.audio_mixer.get_random_music()` in `run_job`. -/
def resolveMusic (music_path : Option String) (env : Env) : Option String :=
  match music_path with
  | some m => some m
  | none => env.randomMusic

/-- Embedding of `Pipeline.run_job` from `pipeline.py`: transition to
`GENERATING_STORY` and persist, generate the story and attach it;
transition to `RENDERING_FRAMES` and persist, render; transition to
`MIXING_AUDIO` and persist, resolve music (explicit path else
`get_random_music()`); when music is available compute the SFX
timestamps and call `mix_for_video` (exporting the intermediate audio
file), otherwise skip audio entirely; then the compose/upload/complete
phase.  Any stage exception lands in `failWith`. -/
def run_job (env : Env) (job0 : PipelineJob) (upload : Bool)
    (music_path : Option String) : Except String PipelineJob × RunLog :=
  let j1 : PipelineJob := { job0 with status := .generating_story }
  let log1 : RunLog := ⟨[j1], [], false, false, none⟩
  match env.gen job0.theme with
  | .error e => failWith { log1 with calls := [("generate", some e)] } j1 e
  | .ok story =>
      let log2 : RunLog := { log1 with calls := log1.calls ++ [("generate", none)] }
      let j2 : PipelineJob := { j1 with story := some story }
      let j3 : PipelineJob := { j2 with status := .rendering_frames }
      let log3 : RunLog := { log2 with saves := log2.saves ++ [j3] }
      match env.render story with
      | .error e => failWith { log3 with calls := log3.calls ++ [("render", some e)] } j3 e
      | .ok frame_paths =>
          let log4 : RunLog := { log3 with calls := log3.calls ++ [("render", none)] }
          let j4 : PipelineJob := { j3 with status := .mixing_audio }
          let log5 : RunLog := { log4 with saves := log4.saves ++ [j4] }
          let md := env.message_delay
          let td := env.typing_duration
          let total_ms := pyInt ((story.messages.length : ℚ) * (md + td) * 1000)
          match resolveMusic music_path env with
          | none => composePhase env upload story frame_paths none j4 log5
          | some m =>
              let sfx := calculate_sfx_timestamps story.messages.length
                (pyInt (md * 1000)) (pyInt (td * 1000)) true
              match env.mix total_ms m
                  (if env.notificationSoundCfg then some sfx else none)
                  ("audio_" ++ job0.id ++ ".mp3") with
              | .error e =>
                  failWith { log5 with mixCalled := true, calls := log5.calls ++ [("mix", some e)] } j4 e
              | .ok audio_path =>
                  let log6 : RunLog := { log5 with mixCalled := true, audioFileCreated := true, calls := log5.calls ++ [("mix", none)] }
                  composePhase env upload story frame_paths (some audio_path) j4 log6
-- scratch

/-- Status–artifact consistency of one persisted job record: a record
never carries a status ahead of the artifacts of the stages before it
(story present from `RENDERING_FRAMES` on, video and thumbnail present
at `UPLOADING`, everything plus the completion timestamp at
`COMPLETED`; no story yet while `GENERATING_STORY` is in progress). -/
def artifactsConsistent (s : PipelineJob) : Prop :=
  (s.status = .generating_story → s.story = none) ∧
  ((s.status = .rendering_frames ∨ s.status = .mixing_audio ∨ s.status = .composing_video) →
      s.story.isSome = true) ∧
  (s.status = .uploading →
      s.story.isSome = true ∧ s.video_path.isSome = true ∧ s.thumbnail_path.isSome = true) ∧
  (s.status = .completed →
      s.story.isSome = true ∧ s.video_path.isSome = true ∧ s.thumbnail_path.isSome = true ∧
      s.completed_at.isSome = true)

/-! ## Batch runner (`Pipeline.run_batch`) -/

/-- Per-index collaborators for a batch: `envAt i` are the oracles seen
by the `i`-th job, `idAt i`/`createdAt i` the uuid and clock values used
by `create_job` for it. -/
structure BatchEnv where
  envAt : ℕ → Env
  idAt : ℕ → String
  createdAt : ℕ → String

/-- Embedding of `Pipeline.create_job`: a fresh `PENDING` job with the given theme. -/
def create_job (jid : String) (theme : Option String) (created : String) : PipelineJob :=
  { id := jid, theme := theme, created_at := created }

/-- Model of `themes[i % len(themes)] if themes else None` in `run_batch`. -/
def batchThemeAt (themes : List String) (i : ℕ) : Option String :=
  if themes.isEmpty then none else some (themes.getD (i % themes.length) "")

/-- One iteration of the batch loop: `self.run(theme=theme,
upload=upload)`, i.e. `create_job` then `run_job` with no explicit
music path. -/
def runSingle (benv : BatchEnv) (i : ℕ) (theme : Option String) (upload : Bool) :
    Except String PipelineJob × RunLog :=
  run_job (benv.envAt i) (create_job (benv.idAt i) theme (benv.createdAt i)) upload none

/-- The per-iteration `try/except` of the batch loop: append the job on
success, swallow the exception on failure. -/
def batchStep : Except String PipelineJob → List PipelineJob → List PipelineJob
  | .ok jb, acc => acc ++ [jb]
  | .error _, acc => acc

/-- Embedding of `Pipeline.run_batch` from `pipeline.py`: run `count` jobs strictly in
sequence, assigning themes cyclically, appending each job that
completes and swallowing (logging) each per-job exception. -/
def run_batch (benv : BatchEnv) (count : ℕ) (themes : List String) (upload : Bool) :
    List PipelineJob :=
  (List.range count).foldl
    (fun acc i => batchStep (runSingle benv i (batchThemeAt themes i) upload).1 acc)
    []

/-- A small concrete story for witnesses. -/
def demoStory : Story :=
  { title := "T", theme := "AITA"
    messages :=
      [ { username := "u1", content := "hi", avatar_color := "#f47fff" }
      , { username := "u2", content := "bruh", avatar_color := "#7289da",
          reactions := ["x"] } ]
    description := "d", tags := ["discord"] }

/-- A fully succeeding environment for witnesses. -/
def demoEnvOk : Env :=
  { gen := fun _ => .ok demoStory
    render := fun _ => .ok ["f_001.png", "f_002_typing.png"]
    randomMusic := some "m.mp3"
    mix := fun _ _ _ p => .ok p
    compose := fun _ _ _ _ _ => .ok ()
    thumb := fun _ _ => .ok ()
    upload := fun _ _ _ => .ok (some "vid123")
    notificationSoundCfg := true
    message_delay := 3/2
    typing_duration := 4/5
    nowIso := "2024-01-01T00:00:05"
    videoFileName := "out.mp4" }

/-- Variant of `demoEnvOk` with no music available. -/
def demoEnvNoMusic : Env := { demoEnvOk with randomMusic := none }

/-- Variant of `demoEnvOk` with a failing story-generation stage. -/
def demoEnvGenFails : Env := { demoEnvOk with gen := fun _ => .error "boom" }

/-- A fresh pending job for witnesses. -/
def demoJob : PipelineJob := { id := "job1", created_at := "2024-01-01T00:00:00" }

/-- Batch environment in which the third job's generation stage raises. -/
def demoBatchEnv : BatchEnv :=
  { envAt := fun i => if i = 2 then demoEnvGenFails else demoEnvOk
    idAt := fun _ => "jid"
    createdAt := fun _ => "2024-01-01T00:00:00" }

/-! ## Theorems -/

theorem JobStatus.ofValue_value (st : JobStatus) :
    JobStatus.ofValue st.value = some st := by
  cases st <;> rfl

theorem msgs_roundtrip (ms : List Message) :
    (ms.map fun m => MessageDict.mk m.username m.content m.avatar_color
        m.timestamp m.reactions).map
      (fun m => Message.mk m.username m.content m.avatar_color
        m.timestamp m.reactions) = ms := by
  induction ms with
  | nil => rfl
  | cons m ms ih => simp only [List.map_cons, ih]

theorem Story.from_dict_to_dict (s : Story) :
    Story.from_dict s.to_dict = s := by
  cases s with
  | mk title theme messages description tags =>
      simp only [Story.to_dict, Story.from_dict]
      rw [msgs_roundtrip]

/-- C5: round-tripping any `PipelineJob` through `to_dict`/`from_dict`
reconstructs the job field-for-field, including the nested `Story` and
each `Message`'s author, text, color, timestamp and reaction list, for
every status value and every combination of present/absent optional
fields. -/
theorem job_roundtrip (j : PipelineJob) :
    PipelineJob.from_dict j.to_dict = some j := by
  cases j with
  | mk id theme status story video_path thumbnail_path youtube_id error created_at completed_at =>
      simp only [PipelineJob.to_dict, PipelineJob.from_dict, JobStatus.ofValue_value]
      cases story with
      | none => rfl
      | some s => simp [Story.from_dict_to_dict]

/-- C3: for every `num_messages ≥ 1` and every configured range, the
timing calculator returns exactly
`display_s = clamp(0.7·((min+max)/2)/n, 1, 3)` and
`typing_s = clamp(0.3·((min+max)/2)/n, 0.4, 1)`, and consequently
`display_s ∈ [1, 3]` and `typing_s ∈ [0.4, 1]`. -/
theorem calculate_durations_spec (n : ℕ) (dmin dmax : ℚ) (hn : 1 ≤ n) :
    (calculate_durations n dmin dmax).1
        = clampQ 1 3 (0.7 * ((dmin + dmax) / 2) / (n : ℚ)) ∧
    (calculate_durations n dmin dmax).2
        = clampQ 0.4 1 (0.3 * ((dmin + dmax) / 2) / (n : ℚ)) ∧
    1 ≤ (calculate_durations n dmin dmax).1 ∧
    (calculate_durations n dmin dmax).1 ≤ 3 ∧
    0.4 ≤ (calculate_durations n dmin dmax).2 ∧
    (calculate_durations n dmin dmax).2 ≤ 1 := by
  have h1 : (dmin + dmax) / 2 / (n : ℚ) * 0.7
      = 0.7 * ((dmin + dmax) / 2) / (n : ℚ) := by ring
  have h2 : (dmin + dmax) / 2 / (n : ℚ) * 0.3
      = 0.3 * ((dmin + dmax) / 2) / (n : ℚ) := by ring
  have e : calculate_durations n dmin dmax
      = (max 1.0 (min 3.0 ((dmin + dmax) / 2 / (n : ℚ) * 0.7)),
         max 0.4 (min 1.0 ((dmin + dmax) / 2 / (n : ℚ) * 0.3))) := rfl
  rw [e]
  refine ⟨?_, ?_, ?_, ?_, ?_, ?_⟩
  · simp only [clampQ]; rw [h1]; norm_num
  · simp only [clampQ]; rw [h2]; norm_num
  · exact le_max_of_le_left (by norm_num)
  · exact max_le (by norm_num) (le_trans (min_le_left _ _) (by norm_num))
  · exact le_max_of_le_left (by norm_num)
  · exact max_le (by norm_num) (le_trans (min_le_left _ _) (by norm_num))

/-- Witness for C3 at `num_messages = 3`, range `[30, 59]` (the config
defaults). -/
theorem calculate_durations_spec_witness :
    (1 ≤ 3 ∧ (calculate_durations 3 30 59).1
        = clampQ 1 3 (0.7 * ((30 + 59) / 2) / (3 : ℚ))) ∧
    1 ≤ (calculate_durations 3 30 59).1 := by
  have h := calculate_durations_spec 3 30 59 (by norm_num)
  exact ⟨⟨by norm_num, h.1⟩, h.2.2.1⟩

theorem sfxAux_pos (m ty : ℤ) (sf : Bool) (k : ℕ) :
    ∀ (i : ℕ) (t : ℤ), 0 < i →
      sfxAux m ty sf k i t
        = (List.range k).map (fun j : ℕ => t + ((j : ℤ) + 1) * ty + (j : ℤ) * m) := by
  induction k with
  | zero => intro i t _; simp [sfxAux]
  | succ k ih =>
      intro i t hi
      have hne : ¬(sf = true ∧ i = 0) := by rintro ⟨-, h0⟩; omega
      simp only [sfxAux, if_pos hi, if_neg hne]
      rw [ih (i + 1) (t + ty + m) (by omega)]
      rw [List.range_succ_eq_map, List.map_cons, List.map_map]
      refine congrArg₂ _ (by push_cast; ring) ?_
      refine List.map_congr_left fun j _ => ?_
      simp only [Function.comp_apply]
      push_cast
      ring

theorem sfxAux_step0 (m ty : ℤ) (sf : Bool) (k : ℕ) :
    sfxAux m ty sf (k + 1) 0 0
      = (if sf = true then [] else [0]) ++ sfxAux m ty sf k 1 m := by
  cases sf <;> simp [sfxAux]

/-- Closed form with `skip_first = true`: the cue for the message at
1-based index `i` (`i ≥ 1`) fires at `i * (typing + message)`. -/
theorem calculate_sfx_timestamps_skip_closed (n : ℕ) (m ty : ℤ) (hn : 1 ≤ n) :
    calculate_sfx_timestamps n m ty true
      = (List.range (n - 1)).map (fun j : ℕ => ((j : ℤ) + 1) * (ty + m)) := by
  obtain ⟨k, rfl⟩ : ∃ k, n = k + 1 := ⟨n - 1, by omega⟩
  show sfxAux m ty true (k + 1) 0 0 = _
  rw [sfxAux_step0, sfxAux_pos m ty true k 1 m Nat.one_pos]
  simp only [if_pos rfl, List.nil_append, Nat.add_sub_cancel]
  exact List.map_congr_left fun j _ => by ring

/-- Closed form with `skip_first = false`. -/
theorem calculate_sfx_timestamps_noskip_closed (n : ℕ) (m ty : ℤ) (hn : 1 ≤ n) :
    calculate_sfx_timestamps n m ty false
      = 0 :: (List.range (n - 1)).map (fun j : ℕ => ((j : ℤ) + 1) * (ty + m)) := by
  obtain ⟨k, rfl⟩ : ∃ k, n = k + 1 := ⟨n - 1, by omega⟩
  show sfxAux m ty false (k + 1) 0 0 = _
  rw [sfxAux_step0, sfxAux_pos m ty false k 1 m Nat.one_pos]
  simp only [Nat.add_sub_cancel]
  rw [if_neg (by simp), List.singleton_append]
  exact congrArg₂ _ rfl (List.map_congr_left fun j _ => by ring)

theorem cue_map_pairwise (k : ℕ) (m ty : ℤ) (hm : 0 ≤ m) (hty : 0 ≤ ty) :
    ((List.range k).map (fun j : ℕ => ((j : ℤ) + 1) * (ty + m))).Pairwise (· ≤ ·) := by
  rw [List.pairwise_map]
  refine (List.pairwise_lt_range k).imp ?_
  intro a b hab
  have h1 : (a : ℤ) + 1 ≤ (b : ℤ) + 1 := by exact_mod_cast Nat.succ_le_succ hab.le
  exact mul_le_mul_of_nonneg_right h1 (by linarith)

/-- C4: for `num_messages ≥ 1` and non-negative durations the scheduler
returns a non-decreasing list of length `num_messages - 1` when
`skip_first` is true and `num_messages` when false; with `skip_first`
the cue at 1-based index `i` equals `i * (typing + message)`, and
`(3, 1500, 800, skip_first=true)` yields exactly `[2300, 4600]`. -/
theorem calculate_sfx_timestamps_spec (n : ℕ) (m ty : ℤ)
    (hn : 1 ≤ n) (hm : 0 ≤ m) (hty : 0 ≤ ty) :
    (calculate_sfx_timestamps n m ty true).length = n - 1 ∧
    (calculate_sfx_timestamps n m ty false).length = n ∧
    (calculate_sfx_timestamps n m ty true).Pairwise (· ≤ ·) ∧
    (calculate_sfx_timestamps n m ty false).Pairwise (· ≤ ·) ∧
    calculate_sfx_timestamps n m ty true
      = (List.range (n - 1)).map (fun j : ℕ => ((j : ℤ) + 1) * (ty + m)) ∧
    calculate_sfx_timestamps 3 1500 800 true = [2300, 4600] := by
  have hskip := calculate_sfx_timestamps_skip_closed n m ty hn
  have hnoskip := calculate_sfx_timestamps_noskip_closed n m ty hn
  refine ⟨?_, ?_, ?_, ?_, hskip, by decide⟩
  · rw [hskip]; simp
  · rw [hnoskip]; simp; omega
  · rw [hskip]; exact cue_map_pairwise (n - 1) m ty hm hty
  · rw [hnoskip]
    refine List.Pairwise.cons ?_ (cue_map_pairwise (n - 1) m ty hm hty)
    intro b hb
    simp only [List.mem_map, List.mem_range] at hb
    obtain ⟨j, -, rfl⟩ := hb
    exact mul_nonneg (by positivity) (by omega)

/-- Witness for C4 at the concrete input of the claim. -/
theorem calculate_sfx_timestamps_spec_witness :
    ((1 : ℕ) ≤ 3 ∧ (0 : ℤ) ≤ 1500 ∧ (0 : ℤ) ≤ 800) ∧
    calculate_sfx_timestamps 3 1500 800 true = [2300, 4600] := by
  refine ⟨⟨by norm_num, by norm_num, by norm_num⟩, ?_⟩
  exact (calculate_sfx_timestamps_spec 3 1500 800 (by norm_num) (by norm_num)
    (by norm_num)).2.2.2.2.2

theorem pyInt_nonneg_floor (q : ℚ) (hq : 0 ≤ q) : pyInt q = ⌊q⌋ := by
  unfold pyInt
  rw [if_neg (not_lt.mpr hq)]

/-- C6: the composed video's duration is the sum of the per-frame
assigned durations (`typing_duration` for frames whose basename contains
`typing`, `message_duration` otherwise), the clips are exactly the
frames in list order with those durations, and a positive-length audio
track is looped/trimmed to exactly the video's duration (the video is
never trimmed to the audio). -/
theorem compose_from_frames_spec (frame_paths : List String) (audioLen : Option ℚ)
    (md td : ℚ) (ha : ∀ a, audioLen = some a → 0 < a) :
    (compose_from_frames frame_paths audioLen md td).videoDuration
      = (frame_paths.map fun p => if isTypingFrame p then td else md).sum ∧
    (compose_from_frames frame_paths audioLen md td).clips
      = (frame_paths.map fun p => (p, if isTypingFrame p then td else md)) ∧
    (∀ a, audioLen = some a →
      (compose_from_frames frame_paths audioLen md td).audioDuration
        = some (compose_from_frames frame_paths audioLen md td).videoDuration) := by
  refine ⟨?_, ?_, ?_⟩
  · simp only [compose_from_frames, frameDuration, List.map_map]
    exact congrArg List.sum (List.map_congr_left fun p _ => rfl)
  · simp [compose_from_frames, frameDuration]
  · rintro a rfl
    have hapos := ha a rfl
    simp only [compose_from_frames]
    set v := (((frame_paths.map fun p =>
      (p, frameDuration md td p)).map Prod.snd).sum : ℚ)
    refine congrArg some ?_
    show (if a < v then a * ((pyInt (v / a) : ℚ) + 1) else a) ⊓ v = v
    by_cases hlt : a < v
    · rw [if_pos hlt]
      have hvpos : 0 ≤ v / a := le_of_lt (div_pos (lt_trans hapos hlt) hapos)
      rw [pyInt_nonneg_floor _ hvpos]
      have hfl : v / a < (⌊v / a⌋ : ℚ) + 1 := Int.lt_floor_add_one _
      have h2 : v < ((⌊v / a⌋ : ℚ) + 1) * a := (div_lt_iff₀ hapos).mp hfl
      have h3 : a * ((⌊v / a⌋ : ℚ) + 1) = ((⌊v / a⌋ : ℚ) + 1) * a := mul_comm _ _
      exact min_eq_right (by linarith)
    · rw [if_neg hlt]
      exact min_eq_right (not_lt.mp hlt)

/-- Witness for C6: two frames, one typing frame, audio of length 1. -/
theorem compose_from_frames_spec_witness :
    (∀ a, (some (1 : ℚ)) = some a → 0 < a) ∧
    (compose_from_frames ["frames/msg_001.png", "frames/typing_002.png"]
        (some 1) (3/2) (4/5)).videoDuration
      = ((["frames/msg_001.png", "frames/typing_002.png"].map
          fun p => if isTypingFrame p then (4/5 : ℚ) else (3/2)).sum) := by
  have h := compose_from_frames_spec ["frames/msg_001.png", "frames/typing_002.png"]
    (some 1) (3/2) (4/5) (fun a h => by cases h; norm_num)
  exact ⟨fun a h => by cases h; norm_num, h.1⟩

/-- C9: `mix_for_video` never fails solely for want of assets.  With no
explicit music path, no music file available and no SFX track possible,
it returns a fully silent segment of exactly `duration_ms` milliseconds
(and still reports the requested output path); and whenever no
notification-sound asset exists, supplying SFX timestamps changes
nothing — the call behaves exactly like the SFX-free call, so it still
succeeds whenever that call does. -/
theorem mix_for_video_spec (env : MixEnv) (duration_ms : ℤ)
    (sfx_timestamps_ms : Option (List ℤ)) (output_path : Option String)
    (hmus : env.randomMusic = none) (hsfx : env.notifSound = none) :
    (mix_for_video env duration_ms none sfx_timestamps_ms output_path
        = .ok (AudioTrack.silent duration_ms, output_path) ∧
      (AudioTrack.silent duration_ms).lengthMs = duration_ms) ∧
    (∀ env2 : MixEnv, env2.notifSound = none →
      ∀ mp ts, mix_for_video env2 duration_ms mp (some ts) output_path
        = mix_for_video env2 duration_ms mp none output_path) := by
  constructor
  · constructor
    · simp only [mix_for_video, hmus, hsfx]
      cases sfx_timestamps_ms with
      | none => rfl
      | some ts =>
          by_cases h : ts.isEmpty || !env.notifEnabled <;> simp [h]
    · simp [AudioTrack.lengthMs]
  · intro env2 h2 mp ts
    simp only [mix_for_video, h2]
    cases mp with
    | none =>
        cases h3 : env2.randomMusic with
        | none =>
            by_cases h : ts.isEmpty || !env2.notifEnabled <;> simp [h]
        | some m =>
            by_cases hl : env2.loadFails m <;>
              by_cases h : ts.isEmpty || !env2.notifEnabled <;> simp [hl, h]
    | some m =>
        by_cases hl : env2.loadFails m <;>
          by_cases h : ts.isEmpty || !env2.notifEnabled <;> simp [hl, h]

/-- Witness for C9: an environment with no assets at all, a 4000 ms
request with SFX timestamps supplied. -/
theorem mix_for_video_spec_witness :
    let env : MixEnv := ⟨none, none, true, fun _ => false⟩
    env.randomMusic = none ∧
    mix_for_video env 4000 none (some [1000, 2000]) (some "out.mp3")
      = .ok (AudioTrack.silent 4000, some "out.mp3") := by
  intro env
  have h := mix_for_video_spec env 4000 (some [1000, 2000]) (some "out.mp3") rfl rfl
  exact ⟨rfl, h.1.1⟩

/-- C1: a successful `run_job` walks the statuses in exactly the fixed
order, with `UPLOADING` present iff upload is enabled, ending in
`COMPLETED`, with no repeats and no skips. -/
theorem run_job_status_sequence (env : Env) (job : PipelineJob) (upload : Bool)
    (mp : Option String) (j : PipelineJob) (log : RunLog)
    (hp : job.status = .pending)
    (h : run_job env job upload mp = (.ok j, log)) :
    job.status :: log.saves.map PipelineJob.status
      = [JobStatus.pending, .generating_story, .rendering_frames, .mixing_audio,
          .composing_video]
        ++ (if upload then [JobStatus.uploading] else []) ++ [JobStatus.completed] := by
  rw [hp]
  cases upload <;>
    · simp only [run_job, composePhase, failWith, Bool.false_eq_true, if_true, if_false,
        ite_true, ite_false] at h ⊢
      repeat' split at h
      all_goals injection h with h1 h2
      all_goals first
        | (injection h1; done)
        | (subst h2; simp)

/-- C2: when `run_job` surfaces an exception, the last persisted record
is the job marked `FAILED` carrying that exception's message, the
failing collaborator call is the last call made (no further stage ran),
every earlier call succeeded, and the same exception is re-raised. -/
theorem run_job_failure_semantics (env : Env) (job : PipelineJob) (upload : Bool)
    (mp : Option String) (e : String) (log : RunLog)
    (h : run_job env job upload mp = (.error e, log)) :
    (∃ jf, log.saves.getLast? = some jf ∧ jf.status = .failed ∧ jf.error = some e) ∧
    (∃ n, log.calls.getLast? = some (n, some e)) ∧
    (∀ c ∈ log.calls.dropLast, c.2 = none) := by
  simp only [run_job, composePhase, failWith] at h
  repeat' split at h
  all_goals injection h with h1 h2
  all_goals first
    | (injection h1; done)
    | (injection h1 with he; subst he; subst h2;
       simp [List.getLast?_concat, List.dropLast_concat])

/-- C8: starting from a fresh job, every record `run_job` persists —
each one written before the next stage begins — satisfies the
status–artifact consistency invariant, so a process killed mid-run
leaves a record whose status reflects the last completed stage and
whose artifacts up to that point are durable; readers of the job store
never observe a status ahead of its artifacts. -/
theorem run_job_persist_consistent (env : Env) (job : PipelineJob) (upload : Bool)
    (mp : Option String)
    (hstory : job.story = none) (hvideo : job.video_path = none)
    (hthumb : job.thumbnail_path = none) (hdone : job.completed_at = none) :
    ∀ s ∈ (run_job env job upload mp).2.saves, artifactsConsistent s := by
  rcases hr : run_job env job upload mp with ⟨res, log⟩
  simp only [run_job, composePhase, failWith] at hr
  repeat' split at hr
  all_goals injection hr with h1 h2
  all_goals subst h2
  all_goals intro s hs
  all_goals simp only [List.append_assoc, List.cons_append, List.nil_append,
    List.mem_append, List.mem_cons, List.mem_singleton, List.not_mem_nil, or_false] at hs
  all_goals
    rcases hs with rfl | hs <;>
      [skip;
       (repeat' rcases hs with rfl | hs)] <;>
    simp [artifactsConsistent, hstory, hvideo, hthumb, hdone]

/-- C10: with no explicit music path and `get_random_music()` returning
nothing, `run_job` never calls the audio mixer and creates no
intermediate audio file, still persists `MIXING_AUDIO`, hands the
composer an absent `audio_path`, and the job still completes. -/
theorem run_job_no_music_skips_audio (env : Env) (job : PipelineJob) (upload : Bool)
    (j : PipelineJob) (log : RunLog)
    (hm : env.randomMusic = none)
    (h : run_job env job upload none = (.ok j, log)) :
    log.mixCalled = false ∧ log.audioFileCreated = false ∧
    log.composerAudioArg = some none ∧
    JobStatus.mixing_audio ∈ log.saves.map PipelineJob.status ∧
    j.status = .completed := by
  simp only [run_job, composePhase, failWith, resolveMusic, hm] at h
  repeat' split at h
  all_goals injection h with h1 h2
  all_goals first
    | (injection h1; done)
    | (injection h1 with hj; subst hj; subst h2; simp)

theorem foldl_except_collect {α : Type} (f : α → Except String PipelineJob) (l : List α)
    (acc : List PipelineJob) :
    l.foldl (fun acc i => batchStep (f i) acc) acc
      = acc ++ l.filterMap fun i => (f i).toOption := by
  induction l generalizing acc with
  | nil => simp
  | cons a l ih =>
      simp only [List.foldl_cons, List.filterMap_cons]
      cases h : f a with
      | ok b =>
          show List.foldl (fun acc i => batchStep (f i) acc) (acc ++ [b]) l
              = acc ++ b :: List.filterMap (fun i => (f i).toOption) l
          rw [ih]
          simp
      | error e =>
          show List.foldl (fun acc i => batchStep (f i) acc) acc l
              = acc ++ List.filterMap (fun i => (f i).toOption) l
          exact ih acc

theorem run_job_ok_completed (env : Env) (job : PipelineJob) (upload : Bool)
    (mp : Option String) (j : PipelineJob) (log : RunLog)
    (h : run_job env job upload mp = (.ok j, log)) : j.status = .completed := by
  simp only [run_job, composePhase, failWith] at h
  repeat' split at h
  all_goals injection h with h1 h2
  all_goals first
    | (injection h1; done)
    | (injection h1 with hj; subst hj; rfl)

/-- Witness for C1: the demo run with upload enabled. -/
theorem run_job_status_sequence_witness :
    demoJob.status = JobStatus.pending ∧
    demoJob.status :: (run_job demoEnvOk demoJob true none).2.saves.map PipelineJob.status
      = [JobStatus.pending, .generating_story, .rendering_frames, .mixing_audio,
          .composing_video]
        ++ (if true then [JobStatus.uploading] else []) ++ [JobStatus.completed] :=
  ⟨rfl, run_job_status_sequence demoEnvOk demoJob true none _ _ rfl rfl⟩

/-- Witness for C2: the demo run whose generation stage raises. -/
theorem run_job_failure_semantics_witness :
    (∃ jf, (run_job demoEnvGenFails demoJob true none).2.saves.getLast? = some jf ∧
        jf.status = .failed ∧ jf.error = some "boom") ∧
    (∃ n, (run_job demoEnvGenFails demoJob true none).2.calls.getLast?
        = some (n, some "boom")) ∧
    (∀ c ∈ (run_job demoEnvGenFails demoJob true none).2.calls.dropLast, c.2 = none) :=
  run_job_failure_semantics demoEnvGenFails demoJob true none "boom" _ rfl

/-- Witness for C8: the first record the demo run persists (the job at
`GENERATING_STORY`) is consistent. -/
theorem run_job_persist_consistent_witness :
    demoJob.story = none ∧
    artifactsConsistent { demoJob with status := JobStatus.generating_story } :=
  ⟨rfl, run_job_persist_consistent demoEnvOk demoJob true none rfl rfl rfl rfl
      { demoJob with status := JobStatus.generating_story } (by decide)⟩

/-- Witness for C10: the demo run with no music available. -/
theorem run_job_no_music_skips_audio_witness :
    demoEnvNoMusic.randomMusic = none ∧
    (run_job demoEnvNoMusic demoJob true none).2.mixCalled = false ∧
    (run_job demoEnvNoMusic demoJob true none).2.audioFileCreated = false := by
  refine ⟨rfl, ?_⟩
  have h := run_job_no_music_skips_audio demoEnvNoMusic demoJob true _ _ rfl rfl
  exact ⟨h.1, h.2.1⟩

/-- C7: `run_batch` runs its jobs sequentially, returning exactly the
jobs whose run completed (per-job exceptions are swallowed, never
re-raised — the function is total and errors are dropped); with a
non-empty theme list the `i`-th job gets the theme at index
`i mod len(themes)`; every returned job is `COMPLETED`; and in a batch
of 5 whose third job's generation stage raises, exactly 4 jobs come
back. -/
theorem run_batch_spec :
    (∀ benv count themes upload,
        run_batch benv count themes upload
          = (List.range count).filterMap
              fun i => ((runSingle benv i (batchThemeAt themes i) upload).1).toOption) ∧
    (∀ (themes : List String) i, themes ≠ [] →
        batchThemeAt themes i = themes[i % themes.length]?) ∧
    (∀ benv count themes upload jb, jb ∈ run_batch benv count themes upload →
        jb.status = .completed) ∧
    (run_batch demoBatchEnv 5 ["a", "b"] true).length = 4 := by
  have hbatch : ∀ benv count themes upload,
      run_batch benv count themes upload
        = (List.range count).filterMap
            fun i => ((runSingle benv i (batchThemeAt themes i) upload).1).toOption := by
    intro benv count themes upload
    unfold run_batch
    exact (foldl_except_collect
      (fun i => (runSingle benv i (batchThemeAt themes i) upload).1)
      (List.range count) []).trans (List.nil_append _)
  refine ⟨hbatch, ?_, ?_, ?_⟩
  · intro themes i hne
    have hpos : 0 < themes.length := List.length_pos.mpr hne
    have hlt : i % themes.length < themes.length := Nat.mod_lt _ hpos
    rw [batchThemeAt, if_neg (by simpa using hne)]
    rw [List.getD_eq_getElem themes "" hlt, List.getElem?_eq_getElem hlt]
  · intro benv count themes upload jb hmem
    rw [hbatch] at hmem
    obtain ⟨i, -, hsome⟩ := List.mem_filterMap.mp hmem
    rcases hres : (runSingle benv i (batchThemeAt themes i) upload).1 with e | jb2
    · rw [hres] at hsome; simp [Except.toOption] at hsome
    · rw [hres] at hsome
      have hok : (runSingle benv i (batchThemeAt themes i) upload).1 = .ok jb := by
        rw [hres]
        simp only [Except.toOption] at hsome
        injection hsome with hjb
        rw [hjb]
      have hpair : runSingle benv i (batchThemeAt themes i) upload
          = (.ok jb, (runSingle benv i (batchThemeAt themes i) upload).2) :=
        Prod.ext_iff.mpr ⟨hok, rfl⟩
      exact run_job_ok_completed _ _ _ _ _ _ hpair
  · decide

/-- Witness for C7: concrete cyclic theme lookup plus the 5-job batch. -/
theorem run_batch_spec_witness :
    ((["a", "b"] : List String) ≠ [] ∧
      batchThemeAt ["a", "b"] 3 = (["a", "b"] : List String)[3 % 2]?) ∧
    (run_batch demoBatchEnv 5 ["a", "b"] true).length = 4 :=
  ⟨⟨by decide, run_batch_spec.2.1 ["a", "b"] 3 (by decide)⟩, run_batch_spec.2.2.2⟩
